import Mathlib

/-!
Verification of the opportunity-detection and per-session action pipeline of
the Sol_Million backend, shallowly embedded from the TypeScript source
(state/store.ts, services/heliusMonitor.ts, routes/api.ts).

Machine integers of the source are modelled as Nat/Int; millisecond
timestamps as Int; floating-point config values (zod `number()` fields) as
rationals; JS `Map`s as insertion-ordered association lists; JS `Set`s as
insertion-ordered duplicate-free lists; network calls as oracle values
supplied through an environment record; thrown exceptions as `Except`/`Option`.
-/

set_option maxHeartbeats 1000000

namespace SolMillion

/-- Cluster tag (`"mainnet-beta" | "devnet"` in store.ts). -/
inductive Cluster where
  | mainnetBeta
  | devnet
deriving DecidableEq

/-- Bot mode (`"snipe" | "volume"`). -/
inductive BotMode where
  | snipe
  | volume
deriving DecidableEq

/-- Pump.fun phase (`"pre" | "post"`). -/
inductive PumpFunPhase where
  | pre
  | post
deriving DecidableEq

/-- Snipe target mode (`"list" | "auto"`). -/
inductive SnipeTargetMode where
  | list
  | auto
deriving DecidableEq

/-- AutoSnipeConfig from store.ts. zod validates the non-integer fields as
finite numbers, so they are modelled as rationals; the two thresholds are
`z.number().int()` and become Nat. -/
structure AutoSnipeConfig where
  maxTxAgeSec : ℚ
  windowSec : ℚ
  minSignalsInWindow : Nat
  minUniqueFeePayersInWindow : Nat
  requireMintAuthorityDisabled : Bool
  requireFreezeAuthorityDisabled : Bool
  allowToken2022 : Bool
  maxTop1HolderPct : ℚ
  maxTop10HolderPct : ℚ
deriving DecidableEq

/-- BotConfig from store.ts (immutable snapshot per start). -/
structure BotConfig where
  cluster : Cluster
  mode : BotMode
  pumpFunPhase : PumpFunPhase
  snipeTargetMode : SnipeTargetMode
  autoSnipe : AutoSnipeConfig
  mevEnabled : Bool
  buyAmountSol : ℚ
  volumeEnabled : Bool
  volumeIntervalSec : ℚ
  volumeTokenMint : String
  volumeSlippageBps : Nat
  volumeRoundtrip : Bool
  takeProfitPct : ℚ
  stopLossPct : ℚ
  minLiquiditySol : ℚ
  autoSellDelaySec : ℚ
  snipeList : List String
deriving DecidableEq

/-- Log level of a LogLine. -/
inductive LogLevel where
  | info
  | warn
  | error
deriving DecidableEq

/-- LogLine from store.ts (the `ts` field is dropped: no claim reads it). -/
structure LogLine where
  level : LogLevel
  msg : String
deriving DecidableEq

/-- MAX_LOGS-bounded append used by pushSessionLog/pushClusterLog:
push, then `splice(0, length - 500)` when over the cap. -/
def pushLog (logs : List LogLine) (level : LogLevel) (msg : String) : List LogLine :=
  let l2 := logs ++ [⟨level, msg⟩]
  if l2.length > 500 then l2.drop (l2.length - 500) else l2

/-- PendingAction from store.ts. `type` is always the string
`"SIGN_AND_BUNDLE"` so it is not a field; the ad-hoc fields the monitor
attaches (`triggerSignature`, `source`, `targetMint`, `needsUnsignedTxs`)
are modelled as optional fields. -/
structure PendingAction where
  reason : String
  unsignedTxsBase64 : List String
  triggerSignature : Option String := none
  source : Option String := none
  targetMint : Option String := none
  needsUnsignedTxs : Bool := false
deriving DecidableEq

/-- BundleStatus.state from store.ts. -/
inductive BundleState where
  | prepared
  | submitted
  | confirmed
  | dropped
  | error
deriving DecidableEq

/-- Result of jito.sendBundle: a string bundle id or an opaque payload. -/
inductive SendResult where
  | str (s : String)
  | other (payload : String)
deriving DecidableEq

/-- The shapes stored in BundleStatus.jitoStatus: the verbatim simulation
result after prepare, `\x7b sendResult \x7d` after submit, and
`\x7b sendResult, poll \x7d` after the one-shot poll. Opaque JSON payloads
are modelled as strings. -/
inductive JitoStatusVal where
  | sim (payload : String)
  | send (r : SendResult)
  | sendPoll (r : SendResult) (poll : String)
deriving DecidableEq

/-- BundleStatus from store.ts. -/
structure BundleStatus where
  bundleId : String
  jitoBundleId : Option String := none
  state : BundleState
  createdAtMs : Int
  lastUpdateMs : Int
  jitoStatus : Option JitoStatusVal := none
  error : Option String := none
  txSignatures : List String := []
deriving DecidableEq

/-- PreparedBundle from store.ts. -/
structure PreparedBundle where
  bundleId : String
  encodedTransactionsBase58 : List String
  createdAtMs : Int
deriving DecidableEq

/-- Reason strings of checkMintSafety rejections, as an enumeration (the
source renders them as strings; the interpolated percentages are display
only). -/
inductive SafetyReason where
  | mintAccountNotFound
  | notTokenMint
  | token2022NotAllowed
  | blockedExtension (t : Nat)
  | mintNotInitialized
  | mintAuthorityEnabled
  | freezeAuthorityEnabled
  | zeroSupply
  | top1TooHigh
  | top10TooHigh
deriving DecidableEq

/-- Result shape of checkMintSafety. -/
structure SafetyResult where
  ok : Bool
  reason : Option SafetyReason := none
  top1Pct : Option ℚ := none
  top10Pct : Option ℚ := none
deriving DecidableEq

/-- Per-mint momentum entry of the auto-snipe filter
(`_autoMintStats` values). `payers` is a JS Set: insertion-ordered and
duplicate-free by construction. -/
structure MomentumEntry where
  firstSeenMs : Int
  createdAtMs : Int
  count : Nat
  payers : List String
  safety : Option SafetyResult
deriving DecidableEq

/-- Typed reject reasons of the auto-snipe filter (`stats.rejects` keys).
`safetyReason none` models the `"safety"` fallback key. -/
inductive RejectReason where
  | noMint
  | notNew
  | windowExpired
  | tooOld
  | momentum
  | uniquePayers
  | safetyReason (r : Option SafetyReason)
deriving DecidableEq

/-- Association-list lookup, modelling JS `Map.get`. -/
def alookup {κ α : Type} [DecidableEq κ] : List (κ × α) → κ → Option α
  | [], _ => none
  | p :: t, k => if p.1 = k then some p.2 else alookup t k

/-- Association-list insert, modelling JS `Map.set`: replace in place when
the key exists, append otherwise (JS Maps keep insertion order). -/
def ainsert {κ α : Type} [DecidableEq κ] : List (κ × α) → κ → α → List (κ × α)
  | [], k, v => [(k, v)]
  | p :: t, k, v => if p.1 = k then (k, v) :: t else p :: ainsert t k v

/-- `_autoSnipeStats` counters of the auto-snipe filter. -/
structure AutoSnipeStats where
  totalSignals : Nat := 0
  txOk : Nat := 0
  mintInferred : Nat := 0
  safetyOk : Nat := 0
  triggered : Nat := 0
  rejects : List (RejectReason × Nat) := []
deriving DecidableEq

/-- `stats.rejects[r] = (stats.rejects[r] ?? 0) + 1`. -/
def bumpReject (stats : AutoSnipeStats) (r : RejectReason) : AutoSnipeStats :=
  { stats with rejects := ainsert stats.rejects r ((alookup stats.rejects r).getD 0 + 1) }

/-- WalletSession from store.ts, together with the ad-hoc fields the monitor
attaches lazily (`_autoMintStats`, `_autoSnipeStats`, `_lastVolumeActionMs`,
`_matchedMints`), here present from the start with their lazy defaults. -/
structure WalletSession where
  owner : String
  running : Bool
  config : Option BotConfig
  epoch : Nat
  logs : List LogLine
  bundles : List (String × BundleStatus)
  preparedBundles : List (String × PreparedBundle)
  pendingAction : Option PendingAction
  autoMintStats : List (String × MomentumEntry) := []
  autoStats : AutoSnipeStats := {}
  lastVolumeActionMs : Option Int := none
  matchedMints : List String := []
deriving DecidableEq

/-- makeSession from store.ts. -/
def makeSession (owner : String) : WalletSession :=
  { owner := owner
    running := false
    config := none
    epoch := 0
    logs := []
    bundles := []
    preparedBundles := []
    pendingAction := none }

/-! Signature deduplication (markSeenSignature in heliusMonitor.ts). The
per-cluster `seenSignatures` JS Set is modelled as its insertion-ordered,
duplicate-free element list; `Array.from(seen).slice(-2000)` keeps the last
2000 inserted elements. -/

/-- markSeenSignature: returns `true` when the signature was already seen
(the caller then drops the notification), else records it and trims the set
to the most recently inserted 2000 entries once it exceeds 3000. -/
def markSeenSignature (seen : List String) (sig : String) : Bool × List String :=
  if sig ∈ seen then (true, seen)
  else
    let s2 := seen ++ [sig]
    if s2.length > 3000 then (false, s2.drop (s2.length - 2000))
    else (false, s2)

/-- Delivering a whole sequence of signatures to markSeenSignature. -/
def markSeenAll (seen : List String) (sigs : List String) : List String :=
  sigs.foldl (fun s sig => (markSeenSignature s sig).2) seen

/-! Mint account layout and Token-2022 TLV parsing (heliusMonitor.ts).
Account data is a byte list; reads are little endian. -/

/-- Byte access (in the source every read is bounds-checked first). -/
def byteAt (data : List Nat) (i : Nat) : Nat := data.getD i 0

/-- readUInt16LE. -/
def u16le (data : List Nat) (off : Nat) : Nat :=
  byteAt data off + 256 * byteAt data (off + 1)

/-- readUInt32LE (u32le in the source). -/
def u32le (data : List Nat) (off : Nat) : Nat :=
  byteAt data off + 256 * byteAt data (off + 1) + 65536 * byteAt data (off + 2)
    + 16777216 * byteAt data (off + 3)

/-- u64le in the source: two u32 reads combined as `(hi <<< 32) + lo`. -/
def u64le (data : List Nat) (off : Nat) : Nat :=
  u32le data off + 4294967296 * u32le data (off + 4)

/-- Parsed SPL mint account fields. -/
structure MintAccountData where
  mintAuthorityOption : Nat
  freezeAuthorityOption : Nat
  supply : Nat
  decimals : Nat
  isInitialized : Bool
deriving DecidableEq

/-- parseMintAccount: fixed 82-byte SPL mint layout. -/
def parseMintAccount (data : List Nat) : Option MintAccountData :=
  if data.length < 82 then none
  else some
    { mintAuthorityOption := u32le data 0
      supply := u64le data 36
      decimals := byteAt data 44
      isInitialized := byteAt data 45 = 1
      freezeAuthorityOption := u32le data 46 }

/-- TLV walk of parseToken2022ExtensionTypes, starting at `off`:
`[u16 type][u16 length][length bytes]` until exhausted; a truncated record
ends the walk. -/
def tlvTypes (data : List Nat) (off : Nat) : List Nat :=
  if h : off + 4 ≤ data.length then
    let t := u16le data off
    let len := u16le data (off + 2)
    if off + 4 + len > data.length then []
    else t :: tlvTypes data (off + 4 + len)
  else []
termination_by data.length - off
decreasing_by omega

/-- parseToken2022ExtensionTypes: best-effort TLV suffix parse after the
82-byte mint layout; fails open to the empty list. -/
def parseToken2022ExtensionTypes (data : List Nat) : List Nat :=
  if data.length ≤ 82 then [] else tlvTypes data 82

/-! checkMintSafety (heliusMonitor.ts). The RPC reads (mint account, token
supply, largest accounts) are oracle inputs; the decision logic is the
translated code. -/

/-- TOKEN_PROGRAM_ID. -/
def TOKEN_PROGRAM_ID : String := "TokenkegQfeZyiNwAJbNbGKPFXCWuBvf9Ss623VQ5DA"

/-- TOKEN_2022_PROGRAM_ID. -/
def TOKEN_2022_PROGRAM_ID : String := "TokenzQdBNbLqP5VEhdkAS6EPFLC1PHnBqCXEpPxuEb"

/-- The Token-2022 extension-type blocklist of checkMintSafety. -/
def blockedExtensionTypes : List Nat := [1, 4, 10, 12, 14, 16]

/-- Account info as the safety check reads it. -/
structure AccountInfoView where
  owner : String
  data : List Nat
deriving DecidableEq

/-- The RPC responses checkMintSafety consumes, as oracle values
(successful fetches; a thrown fetch aborts the whole signal iteration and
is modelled at the call site). -/
structure SafetyEnv where
  mintAccount : Option AccountInfoView
  supplyAmount : Nat
  largestAmounts : List Nat
deriving DecidableEq

/-- checkMintSafety: authority flags, Token-2022 extension blocklist, supply
and holder-concentration checks. `top1Pct = Number((top1 * 10000n) / supply) / 100`
is BigInt floor division then division by 100, i.e. exact rational
`(top1 * 10000 / supply) / 100` with a Nat floor division inside. The
holder-concentration caps are applied only when at least 5 of the largest
accounts are non-zero. -/
def checkMintSafety (env : SafetyEnv) (cfg : AutoSnipeConfig) : SafetyResult :=
  match env.mintAccount with
  | none => { ok := false, reason := some .mintAccountNotFound }
  | some acc =>
    let is2022 := acc.owner = TOKEN_2022_PROGRAM_ID
    let isToken := acc.owner = TOKEN_PROGRAM_ID
    if ¬ isToken ∧ ¬ is2022 then { ok := false, reason := some .notTokenMint }
    else if is2022 ∧ ¬ cfg.allowToken2022 then
      { ok := false, reason := some .token2022NotAllowed }
    else
      match (if is2022 then
              (parseToken2022ExtensionTypes acc.data).find?
                (fun t => blockedExtensionTypes.contains t)
             else none) with
      | some t => { ok := false, reason := some (.blockedExtension t) }
      | none =>
        match parseMintAccount acc.data with
        | none => { ok := false, reason := some .mintNotInitialized }
        | some parsed =>
          if ¬ parsed.isInitialized then
            { ok := false, reason := some .mintNotInitialized }
          else if cfg.requireMintAuthorityDisabled ∧ parsed.mintAuthorityOption ≠ 0 then
            { ok := false, reason := some .mintAuthorityEnabled }
          else if cfg.requireFreezeAuthorityDisabled ∧ parsed.freezeAuthorityOption ≠ 0 then
            { ok := false, reason := some .freezeAuthorityEnabled }
          else if env.supplyAmount = 0 then
            { ok := false, reason := some .zeroSupply }
          else
            let amounts := env.largestAmounts
            let top1 := amounts.headD 0
            let top10 := (amounts.take 10).sum
            let nonZeroHolders := (amounts.filter (fun a => 0 < a)).length
            let top1Pct : ℚ := ((top1 * 10000) / env.supplyAmount : Nat) / 100
            let top10Pct : ℚ := ((top10 * 10000) / env.supplyAmount : Nat) / 100
            if 5 ≤ nonZeroHolders ∧ top1Pct > cfg.maxTop1HolderPct then
              { ok := false, reason := some .top1TooHigh
                top1Pct := some top1Pct, top10Pct := some top10Pct }
            else if 5 ≤ nonZeroHolders ∧ top10Pct > cfg.maxTop10HolderPct then
              { ok := false, reason := some .top10TooHigh
                top1Pct := some top1Pct, top10Pct := some top10Pct }
            else
              { ok := true, top1Pct := some top1Pct, top10Pct := some top10Pct }

/-! The auto-snipe momentum step (ws message handler, auto branch of the
per-session fan-out in heliusMonitor.ts). The transaction fetch, mint
inference, payer extraction and safety RPC results arrive as oracle inputs;
the two running/config/epoch re-check sites after awaits are modelled by
abort flags (an abort leaves exactly the mutations the source has already
made); a safety RPC that throws is caught by the surrounding try and also
modelled by a flag. -/

/-- One deduplicated pump.fun signal as the auto branch consumes it. -/
structure SignalInput where
  now : Int
  mint : Option String
  isCreateFromLogs : Bool
  mintNewInTx : Bool
  payer : Option String
  safetyResult : SafetyResult
  safetyThrows : Bool := false
  abortAfterInfer : Bool := false
  abortAfterSafety : Bool := false
deriving DecidableEq

/-- Outcome of one auto-branch iteration: trigger (the handler then arms the
pending action with this mint), a typed reject, a stale-guard abort, or a
caught exception. -/
inductive StepOutcome where
  | triggered (mint : String)
  | rejected (r : RejectReason)
  | aborted
  | threw
deriving DecidableEq

/-- The tail of the auto branch once a momentum entry `st0` is current (the
entry is already stored in the map, as in the source where it was created or
mutated in place): age gate, count/payer increments, memoized safety check,
momentum thresholds, trigger. -/
def autoSnipeStepCore (cfg : AutoSnipeConfig) (ms : List (String × MomentumEntry))
    (stats : AutoSnipeStats) (inp : SignalInput) (mint : String) (st0 : MomentumEntry) :
    List (String × MomentumEntry) × AutoSnipeStats × StepOutcome :=
  let ageSec : Int := Int.fdiv (inp.now - st0.createdAtMs) 1000
  if (ageSec : ℚ) > cfg.maxTxAgeSec then
    (ainsert ms mint st0, bumpReject stats .tooOld, .rejected .tooOld)
  else
    let st1 : MomentumEntry :=
      { st0 with
        count := st0.count + 1
        payers :=
          match inp.payer with
          | some p => if p ∈ st0.payers then st0.payers else st0.payers ++ [p]
          | none => st0.payers }
    if st1.safety.isNone ∧ inp.safetyThrows then
      (ainsert ms mint st1, stats, .threw)
    else
      let sr := st1.safety.getD inp.safetyResult
      let st2 : MomentumEntry := { st1 with safety := some sr }
      if inp.abortAfterSafety then (ainsert ms mint st2, stats, .aborted)
      else if ¬ sr.ok then
        (ainsert ms mint st2, bumpReject stats (.safetyReason sr.reason),
          .rejected (.safetyReason sr.reason))
      else
        let stats1 := { stats with safetyOk := stats.safetyOk + 1 }
        if st2.count < cfg.minSignalsInWindow then
          (ainsert ms mint st2, bumpReject stats1 .momentum, .rejected .momentum)
        else if st2.payers.length < cfg.minUniqueFeePayersInWindow then
          (ainsert ms mint st2, bumpReject stats1 .uniquePayers, .rejected .uniquePayers)
        else
          (ainsert ms mint st2, { stats1 with triggered := stats1.triggered + 1 },
            .triggered mint)

/-- One auto-branch iteration over the momentum map and stats counters:
counter bump, mint inference, create heuristic, momentum window entry
resolution, then `autoSnipeStepCore`. -/
def autoSnipeStep (cfg : AutoSnipeConfig) (ms : List (String × MomentumEntry))
    (stats : AutoSnipeStats) (inp : SignalInput) :
    List (String × MomentumEntry) × AutoSnipeStats × StepOutcome :=
  let stats1 := { stats with totalSignals := stats.totalSignals + 1 }
  if inp.abortAfterInfer then (ms, stats1, .aborted)
  else
    match inp.mint with
    | none => (ms, bumpReject stats1 .noMint, .rejected .noMint)
    | some mint =>
      let isCreate := inp.isCreateFromLogs || inp.mintNewInTx
      let stats2 := { stats1 with txOk := stats1.txOk + 1, mintInferred := stats1.mintInferred + 1 }
      let freshEntry : MomentumEntry :=
        { firstSeenMs := inp.now, createdAtMs := inp.now, count := 0, payers := [], safety := none }
      match alookup ms mint with
      | none =>
        if isCreate = false then (ms, bumpReject stats2 .notNew, .rejected .notNew)
        else autoSnipeStepCore cfg ms stats2 inp mint freshEntry
      | some st =>
        if ((inp.now - st.firstSeenMs : Int) : ℚ) > cfg.windowSec * 1000 then
          if isCreate = false then
            (ms, bumpReject stats2 .windowExpired, .rejected .windowExpired)
          else autoSnipeStepCore cfg ms stats2 inp mint freshEntry
        else autoSnipeStepCore cfg ms stats2 inp mint st

/-- One auto-branch iteration on the paired (momentum map, stats) state. -/
def autoSnipeFold (cfg : AutoSnipeConfig)
    (p : List (String × MomentumEntry) × AutoSnipeStats) (inp : SignalInput) :
    List (String × MomentumEntry) × AutoSnipeStats :=
  let r := autoSnipeStep cfg p.1 p.2 inp
  (r.1, r.2.1)

/-- Folding a list of signals through the auto branch, starting from the
lazily initialized state (empty momentum map, all-zero counters). -/
def autoSnipeRun (cfg : AutoSnipeConfig) (inputs : List SignalInput) :
    List (String × MomentumEntry) × AutoSnipeStats :=
  inputs.foldl (autoSnipeFold cfg) ([], {})

/-! Session lifecycle (startWalletSession / stopWalletSession in
heliusMonitor.ts). The WebSocket subscription and volume-timer side effects
live outside the session record and are modelled separately. -/

/-- Rendering of a BotMode for the session-started log line. -/
def modeStr (m : BotMode) : String :=
  match m with
  | .snipe => "snipe"
  | .volume => "volume"

/-- startWalletSession: flips running on, installs the config, clears the
pending action, increments the epoch and logs. No other session field is
touched. -/
def startWalletSession (s : WalletSession) (config : BotConfig) : WalletSession :=
  { s with
    running := true
    config := some config
    pendingAction := none
    epoch := s.epoch + 1
    logs := pushLog s.logs LogLevel.info ("Session started. mode=" ++ modeStr config.mode
      ++ " mev=" ++ (if config.mevEnabled then "true" else "false")) }

/-- stopWalletSession (the per-session part; closing the idle cluster
WebSocket is cluster state): flips running off, clears config and pending
action, increments the epoch and logs. No other session field is touched. -/
def stopWalletSession (s : WalletSession) : WalletSession :=
  { s with
    running := false
    config := none
    pendingAction := none
    epoch := s.epoch + 1
    logs := pushLog s.logs LogLevel.info "Session stopped" }

/-! Volume loop (startVolumeLoop in heliusMonitor.ts): an immediate tick at
start, then a 1 Hz interval whose callback re-ticks only when
`volumeIntervalSec` has elapsed since `_lastVolumeActionMs`. -/

/-- The pending action the volume loop arms. -/
def volumeActionFor (cfg : BotConfig) (now : Int) : PendingAction :=
  { reason :=
      if cfg.volumeRoundtrip then
        "[volume] Cycle ready (auto-route: Jupiter if possible, else Pump.fun): SOL to token to SOL. Click Sign and execute."
      else
        "[volume] Cycle ready (auto-route: Jupiter if possible, else Pump.fun): SOL to token. Click Sign and execute."
    unsignedTxsBase64 := []
    triggerSignature := some ("volumeTimer:" ++ toString now)
    source := some "volumeTimer"
    targetMint := some cfg.volumeTokenMint
    needsUnsignedTxs := true }

/-- The volume-loop `tick` closure: arm a pending action when the session is
running in enabled volume mode and has none. -/
def volumeTick (s : WalletSession) (now : Int) : WalletSession :=
  match s.config with
  | none => s
  | some cfg =>
    if ¬ s.running ∨ cfg.mode ≠ .volume then s
    else if ¬ cfg.volumeEnabled then s
    else
      match s.pendingAction with
      | some _ => s
      | none => { s with pendingAction := some (volumeActionFor cfg now) }

/-- startVolumeLoop: a no-op when a timer for the (cluster, owner) key is
already registered; otherwise runs `tick()` once immediately and registers
the 1 Hz interval. The returned Bool is the registered-timer flag. -/
def startVolumeLoop (timerRegistered : Bool) (s : WalletSession) (now : Int) :
    WalletSession × Bool :=
  if timerRegistered then (s, true)
  else (volumeTick s now, true)

/-- One 1 Hz interval callback: compute the configured interval, skip while
`_lastVolumeActionMs` is set (and non-zero, JS truthiness) and younger than
the interval, otherwise tick and, when this tick armed a new action, record
`_lastVolumeActionMs = now`. -/
def volumeIntervalTick (s : WalletSession) (now : Int) : WalletSession :=
  let intervalMs : ℚ :=
    match s.config with
    | some cfg => if cfg.mode = .volume then max 2 cfg.volumeIntervalSec * 1000 else 20000
    | none => 20000
  let throttled : Bool :=
    match s.lastVolumeActionMs with
    | some lastMs => decide (lastMs ≠ 0) && decide (((now - lastMs : Int) : ℚ) < intervalMs)
    | none => false
  if throttled then s
  else
    let before := s.pendingAction
    let s2 := volumeTick s now
    if before = none ∧ s2.pendingAction.isSome then
      { s2 with lastVolumeActionMs := some now }
    else s2

/-! Interleaving model of the signal-processing path (ws message handler
fan-out, heliusMonitor.ts). Each in-flight per-session iteration of the
fan-out loop is a task: it passes the entry guard (running, config present,
no pending action), captures `(config, epoch)` and suspends at the first
await; on resume it re-checks running/config/epoch — but not the pending
action — and writes the pending action. Start/stop replace the config and
increment the epoch together, so the captured-config identity check is
subsumed by the captured-epoch check. Prepare clearing the slot and
start/stop are the other pending-action writers. -/

/-- Phase of one in-flight signal task for a fixed session. -/
inductive SignalTaskPhase where
  | started
  | suspended (epoch : Nat)
  | done
deriving DecidableEq

/-- The session fields the signal path reads and writes, plus the in-flight
tasks. -/
structure SignalSessionState where
  running : Bool
  epoch : Nat
  pendingAction : Option PendingAction
  tasks : List SignalTaskPhase
deriving DecidableEq

/-- Events of the interleaving: a task passing the entry guard and
suspending, a task resuming and writing, a successful prepare clearing the
slot, and stop/start. -/
inductive SignalEvent where
  | enterGuard (i : Nat)
  | resumeWrite (i : Nat) (act : PendingAction)
  | prepareClears
  | stop
  | start
deriving DecidableEq

/-- One interleaving step. `enterGuard` is lines 397-399 of the handler (skip
unless running with a null pendingAction) plus the `(config, epoch)` capture;
`resumeWrite` is the post-await re-check (running, config, epoch — the
pending action is not re-checked) followed by the pendingAction write. -/
def signalSessionStep (st : SignalSessionState) (e : SignalEvent) : SignalSessionState :=
  match e with
  | .enterGuard i =>
    match st.tasks.get? i with
    | some .started =>
      if st.running ∧ st.pendingAction = none then
        { st with tasks := st.tasks.set i (.suspended st.epoch) }
      else { st with tasks := st.tasks.set i .done }
    | _ => st
  | .resumeWrite i act =>
    match st.tasks.get? i with
    | some (.suspended ep) =>
      if st.running ∧ st.epoch = ep then
        { st with pendingAction := some act, tasks := st.tasks.set i .done }
      else { st with tasks := st.tasks.set i .done }
    | _ => st
  | .prepareClears => { st with pendingAction := none }
  | .stop => { st with running := false, epoch := st.epoch + 1, pendingAction := none }
  | .start => { st with running := true, epoch := st.epoch + 1, pendingAction := none }

/-- Running a whole event interleaving. -/
def signalSessionRun (st : SignalSessionState) (es : List SignalEvent) : SignalSessionState :=
  es.foldl signalSessionStep st

/-- The event wrote a (new) pending action into the slot. -/
def writesNewAction (st : SignalSessionState) (e : SignalEvent) : Prop :=
  (signalSessionStep st e).pendingAction ≠ st.pendingAction ∧
    ((signalSessionStep st e).pendingAction).isSome = true

instance (st : SignalSessionState) (e : SignalEvent) : Decidable (writesNewAction st e) :=
  inferInstanceAs (Decidable (_ ∧ _))

/-! Bundle lifecycle handlers (POST /prepare-bundle and POST /submit-bundle
in routes/api.ts). zod validation, transaction deserialization, the Jito
block-engine calls and UUID generation arrive through environment records;
the handler control flow is the translated code. Handlers return the HTTP
response and the updated session. -/

/-- A deserialized VersionedTransaction as the handlers read it: static
account keys, compiled instructions, and the per-transaction signatures
(already base58-rendered; `signatures[0]` undefined only for an empty
list). -/
structure CompiledIx where
  programIdIndex : Nat
  accountKeyIndexes : List Nat
  data : List Nat
deriving DecidableEq

/-- Decoded transaction view. -/
structure DecodedTx where
  staticAccountKeys : List String
  compiledInstructions : List CompiledIx
  signatures : List String
deriving DecidableEq

/-- SystemProgram.programId. -/
def SYSTEM_PROGRAM_ID : String := "11111111111111111111111111111111"

/-- isSystemTransferToTipAccount: some compiled instruction is a
SystemProgram instruction whose 4-byte LE discriminator is 2 (transfer),
with at least 12 bytes of data, whose second account (the destination) is in
the tip-account set. -/
def isSystemTransferToTipAccount (tx : DecodedTx) (tipAccounts : List String) : Bool :=
  tx.compiledInstructions.any fun ix =>
    match tx.staticAccountKeys.get? ix.programIdIndex with
    | none => false
    | some pid =>
      if pid ≠ SYSTEM_PROGRAM_ID then false
      else if ix.data.length < 4 + 8 then false
      else if u32le ix.data 0 ≠ 2 then false
      else
        match ix.accountKeyIndexes.get? 1 with
        | none => false
        | some toIndex =>
          match tx.staticAccountKeys.get? toIndex with
          | none => false
          | some dest => tipAccounts.contains dest

/-- Environment of the prepare-bundle handler: deserialization (`none`
models a thrown deserialize), base64-to-base58 re-encoding, the
`jito.getTipAccounts` result, the `jito.simulateBundle` result keyed by the
base58 list, the uuidv4 value and `Date.now()`. -/
structure PrepareEnv where
  decodeTx : String → Option DecodedTx
  toBase58 : String → String
  tipAccounts : Except String (List String)
  simulate : List String → Except String String
  freshId : String
  now : Int

/-- Response of the prepare-bundle handler. -/
inductive PrepareResp where
  | ok (bundleId : String) (simulation : String)
  | err (status : Nat) (msg : String)
deriving DecidableEq

/-- The mainnet-only refusal message of /prepare-bundle. -/
def prepareMainnetOnlyMsg : String :=
  "Jito bundles are mainnet-only. Use cluster=mainnet-beta for MEV protection."

/-- The mainnet-only refusal message of /submit-bundle. -/
def submitMainnetOnlyMsg : String := "Jito bundles are mainnet-only."

/-- The non-fatal warning when the last transaction is not a tip transfer. -/
def noTipWarnMsg : String :=
  "No Jito tip tx detected as last tx; submitting bundle without explicit tip."

/-- The non-fatal warning when the tip-account lookup itself fails. -/
def tipLookupWarnMsg : String :=
  "Failed to validate Jito tip accounts; submitting bundle anyway. err="

/-- The zod body schema of /prepare-bundle on the transactions field:
1 to 5 strings, each at least 10 characters. -/
def validPrepareInput (signedTxsBase64 : List String) : Prop :=
  1 ≤ signedTxsBase64.length ∧ signedTxsBase64.length ≤ 5 ∧
    ∀ t ∈ signedTxsBase64, 10 ≤ t.length

instance (txs : List String) : Decidable (validPrepareInput txs) :=
  inferInstanceAs (Decidable (_ ∧ _ ∧ _))

/-- The non-fatal tip-last check inside /prepare-bundle (its own try/catch):
when the tip-account fetch succeeds and the last decoded transaction is not
a native transfer to one of them, push a warning; when the fetch itself
throws, push a different warning; never fail. -/
def tipCheckSession (env : PrepareEnv) (s : WalletSession) (txs : List DecodedTx) :
    WalletSession :=
  match env.tipAccounts with
  | .ok accs =>
    match txs.getLast? with
    | some lastTx =>
      if isSystemTransferToTipAccount lastTx accs then s
      else { s with logs := pushLog s.logs LogLevel.warn noTipWarnMsg }
    | none => s
  | .error e => { s with logs := pushLog s.logs LogLevel.warn (tipLookupWarnMsg ++ e) }

/-- POST /prepare-bundle: validate, refuse devnet, deserialize, run the
non-fatal tip-last check (warning only), simulate, then insert into
`preparedBundles` and `bundles` with state `prepared`, store the simulation
verbatim and clear the pending action. Any throw inside the try returns 500
with an error log and leaves the maps and the pending action untouched. -/
def prepareBundle (env : PrepareEnv) (cluster : Cluster) (s : WalletSession)
    (signedTxsBase64 : List String) : PrepareResp × WalletSession :=
  if ¬ validPrepareInput signedTxsBase64 then (.err 400 "invalid request body", s)
  else if cluster = .devnet then (.err 400 prepareMainnetOnlyMsg, s)
  else
    match signedTxsBase64.mapM env.decodeTx with
    | none =>
      (.err 500 "failed to deserialize transaction",
        { s with logs := (pushLog s.logs LogLevel.error
            "prepare-bundle failed: failed to deserialize transaction") })
    | some txs =>
      let s1 := tipCheckSession env s txs
      let encodedTransactionsBase58 := signedTxsBase64.map env.toBase58
      let bundleId := env.freshId
      match env.simulate encodedTransactionsBase58 with
      | .error e =>
        (.err 500 e,
          { s1 with logs := pushLog s1.logs LogLevel.error ("prepare-bundle failed: " ++ e) })
      | .ok sim =>
        let txSignatures := txs.filterMap (fun t => t.signatures.head?)
        let s2 :=
          { s1 with
            preparedBundles := ainsert s1.preparedBundles bundleId
              { bundleId := bundleId
                encodedTransactionsBase58 := encodedTransactionsBase58
                createdAtMs := env.now }
            bundles := ainsert s1.bundles bundleId
              { bundleId := bundleId
                state := .prepared
                createdAtMs := env.now
                lastUpdateMs := env.now
                jitoStatus := some (.sim sim)
                txSignatures := txSignatures }
            pendingAction := none }
        (.ok bundleId sim,
          { s2 with logs := (pushLog s2.logs LogLevel.info
              ("Bundle prepared (simulated). id=" ++ bundleId)) })

/-- Environment of the submit-bundle handler: the zod uuid validation, the
`jito.sendBundle` result, the one-shot `jito.getBundleStatuses` poll and
`Date.now()`. -/
structure SubmitEnv where
  isUuid : String → Bool
  sendBundle : List String → Except String SendResult
  getBundleStatuses : String → Except String String
  now : Int

/-- Response of the submit-bundle handler. -/
inductive SubmitResp where
  | ok (bundleId : String) (sendResult : SendResult)
  | err (status : Nat) (msg : String)
deriving DecidableEq

/-- In-place mutation of the bundle record under a key, when present
(`session.bundles.get(id)` then field mutations). -/
def updateBundle (s : WalletSession) (k : String) (f : BundleStatus → BundleStatus) :
    WalletSession :=
  { s with bundles := s.bundles.map (fun p => if p.1 = k then (p.1, f p.2) else p) }

/-- POST /submit-bundle: validate, refuse devnet, look up the prepared
bundle, send, record the remote id and transition to `submitted`, poll once
(poll errors swallowed). A send throw transitions the record to `error`. -/
def submitBundle (env : SubmitEnv) (cluster : Cluster) (s : WalletSession)
    (bundleId : String) : SubmitResp × WalletSession :=
  if ¬ env.isUuid bundleId then (.err 400 "invalid request body", s)
  else if cluster = .devnet then (.err 400 submitMainnetOnlyMsg, s)
  else
    match alookup s.preparedBundles bundleId with
    | none => (.err 404 "Unknown bundleId (not prepared)", s)
    | some prepared =>
      match env.sendBundle prepared.encodedTransactionsBase58 with
      | .error e =>
        let s1 := updateBundle s bundleId (fun st =>
          { st with state := .error, lastUpdateMs := env.now, error := some e })
        (.err 500 e, { s1 with logs := pushLog s1.logs LogLevel.error ("sendBundle failed: " ++ e) })
      | .ok sendResult =>
        let s1 := updateBundle s bundleId (fun st =>
          { st with
            state := .submitted
            lastUpdateMs := env.now
            jitoBundleId := (match sendResult with | .str x => some x | .other _ => st.jitoBundleId)
            jitoStatus := some (.send sendResult) })
        let s2 := { s1 with logs := (pushLog s1.logs LogLevel.info
          ("Bundle submitted to Jito. localId=" ++ bundleId)) }
        let pollTarget := (match sendResult with | .str x => x | .other _ => bundleId)
        let s3 :=
          match env.getBundleStatuses pollTarget with
          | .ok poll => updateBundle s2 bundleId (fun st =>
              { st with lastUpdateMs := env.now, jitoStatus := some (.sendPoll sendResult poll) })
          | .error _ => s2
        (.ok bundleId sendResult, s3)

/-- A session with its log ring cleared: the bundle handlers' behavior on
everything except logging is log-independent. -/
def stripLogs (s : WalletSession) : WalletSession := { s with logs := [] }

/-! Predicates over the auto-snipe counters. -/

/-- Pointwise order on the five auto-snipe counters. -/
def statsLE (a b : AutoSnipeStats) : Prop :=
  a.totalSignals ≤ b.totalSignals ∧ a.txOk ≤ b.txOk ∧ a.mintInferred ≤ b.mintInferred ∧
    a.safetyOk ≤ b.safetyOk ∧ a.triggered ≤ b.triggered

/-- The funnel chain of the auto-snipe counters:
triggered ≤ safetyOk ≤ mintInferred ≤ txOk ≤ totalSignals. -/
def statsChain (a : AutoSnipeStats) : Prop :=
  a.triggered ≤ a.safetyOk ∧ a.safetyOk ≤ a.mintInferred ∧
    a.mintInferred ≤ a.txOk ∧ a.txOk ≤ a.totalSignals

/-! Concrete inputs used by the witnesses and counterexamples. -/

/-- A representative auto-snipe config: the zod defaults of the config
schema (window 8 s, max age 20 s, thresholds 3 and 3, caps 20 and 60). -/
def sampleCfg : AutoSnipeConfig :=
  { maxTxAgeSec := 20
    windowSec := 8
    minSignalsInWindow := 3
    minUniqueFeePayersInWindow := 3
    requireMintAuthorityDisabled := true
    requireFreezeAuthorityDisabled := true
    allowToken2022 := true
    maxTop1HolderPct := 20
    maxTop10HolderPct := 60 }

/-- A passing safety result. -/
def sampleSafetyOk : SafetyResult := { ok := true }

/-- A momentum map holding one mint two signals deep in the current window. -/
def sampleMs : List (String × MomentumEntry) :=
  [("M", { firstSeenMs := 0, createdAtMs := 0, count := 2, payers := ["p1", "p2"],
           safety := some sampleSafetyOk })]

/-- The third signal for that mint: one second in, a fresh payer. -/
def sampleInp : SignalInput :=
  { now := 1000
    mint := some "M"
    isCreateFromLogs := true
    mintNewInTx := false
    payer := some "p3"
    safetyResult := sampleSafetyOk }

/-- An 82-byte mint account: both authority option tags 0, initialized. -/
def goodMintData : List Nat :=
  List.replicate 45 0 ++ [1] ++ List.replicate 36 0

/-- Safety oracle for a healthy mint that has a single (fully concentrated)
non-zero holder. -/
def c8Env : SafetyEnv :=
  { mintAccount := some { owner := TOKEN_PROGRAM_ID, data := goodMintData }
    supplyAmount := 100
    largestAmounts := [100] }

/-- A decoded transaction with no instructions (in particular not a tip
transfer) and one signature. -/
def sampleDecodedTx : DecodedTx :=
  { staticAccountKeys := ["payer1"], compiledInstructions := [], signatures := ["sig1"] }

/-- A well-formed signed-transaction body for the bundle handlers. -/
def sampleTxs : List String := ["0123456789"]

/-- Prepare-handler environment: every external call succeeds, the tip-account
set is empty. -/
def samplePrepareEnv : PrepareEnv :=
  { decodeTx := fun _ => some sampleDecodedTx
    toBase58 := fun t => t
    tipAccounts := .ok []
    simulate := fun _ => .ok "simulated"
    freshId := "bundle-1"
    now := 0 }

/-- Submit-handler environment. -/
def sampleSubmitEnv : SubmitEnv :=
  { isUuid := fun _ => true
    sendBundle := fun _ => .ok (.str "remote-1")
    getBundleStatuses := fun _ => .ok "polled"
    now := 0 }

/-- A session with a pending action awaiting its signed bundle. -/
def sampleSession : WalletSession :=
  { makeSession "owner1" with
    running := true
    pendingAction := some { reason := "target", unsignedTxsBase64 := [] } }

/-- A volume-mode config (snipe-irrelevant fields at their defaults). -/
def volConfig : BotConfig :=
  { cluster := .mainnetBeta
    mode := .volume
    pumpFunPhase := .post
    snipeTargetMode := .list
    autoSnipe := sampleCfg
    mevEnabled := true
    buyAmountSol := 1
    volumeEnabled := true
    volumeIntervalSec := 20
    volumeTokenMint := "MintT"
    volumeSlippageBps := 150
    volumeRoundtrip := true
    takeProfitPct := 0
    stopLossPct := 0
    minLiquiditySol := 0
    autoSellDelaySec := 0
    snipeList := [] }

/-- A freshly started volume session (no pending action, no recorded
last-volume-action timestamp). -/
def volSession : WalletSession :=
  { makeSession "owner2" with running := true, config := some volConfig }

/-- A session carrying momentum state from a previous run. -/
def c4Session : WalletSession :=
  { makeSession "owner3" with
    autoMintStats := [("M", { firstSeenMs := 0, createdAtMs := 0, count := 1,
                              payers := ["p"], safety := none })] }

/-- Two distinct pending actions for the interleaving counterexample. -/
def cexActA : PendingAction := { reason := "A", unsignedTxsBase64 := [] }

/-- The second action of the interleaving counterexample. -/
def cexActB : PendingAction := { reason := "B", unsignedTxsBase64 := [] }

/-- A running session with two signals in flight. -/
def cexInit : SignalSessionState :=
  { running := true, epoch := 0, pendingAction := none, tasks := [.started, .started] }

/-- Both tasks pass the entry guard before either resumes; the first resume
writes its action. -/
def cexPrefix : List SignalEvent :=
  [.enterGuard 0, .enterGuard 1, .resumeWrite 0 cexActA]

/-- A one-task session state suspended at epoch 0. -/
def suspState : SignalSessionState :=
  { running := true, epoch := 0, pendingAction := none
    tasks := [SignalTaskPhase.suspended 0] }

/-- 3001 pairwise distinct signatures (distinct lengths). -/
def bigSigList : List String :=
  (List.range 3001).map (fun n => String.mk (List.replicate n 'a'))

/-! Association-list and log-ring facts shared by the claim theorems. -/

theorem alookup_ainsert_self {κ α : Type} [DecidableEq κ] (m : List (κ × α)) (k : κ) (v : α) :
    alookup (ainsert m k v) k = some v := by
  induction m with
  | nil => simp [ainsert, alookup]
  | cons p t ih =>
    by_cases hp : p.1 = k <;> simp [ainsert, alookup, hp, ih]

theorem ainsert_append_of_none {κ α : Type} [DecidableEq κ] (m : List (κ × α)) (k : κ) (v : α)
    (h : alookup m k = none) : ainsert m k v = m ++ [(k, v)] := by
  induction m with
  | nil => simp [ainsert]
  | cons p t ih =>
    by_cases hp : p.1 = k
    · simp [alookup, hp] at h
    · simp only [alookup, hp, if_false] at h
      simp [ainsert, hp, ih h]

theorem pushLog_eq_append (logs : List LogLine) (lv : LogLevel) (m : String)
    (h : logs.length ≤ 499) : pushLog logs lv m = logs ++ [⟨lv, m⟩] := by
  unfold pushLog
  rw [if_neg]
  simp only [List.length_append, List.length_singleton]
  omega

/-- C4 counterexample: on a session carrying per-mint momentum state, Start
(and Stop) clear the pendingAction but do NOT reset the momentum tracking
state, so the claim "pendingAction is cleared and the per-mint momentum
tracking state is reset" fails at this concrete session. -/
theorem start_stop_reset_cex :
    ¬ ((startWalletSession c4Session volConfig).pendingAction = none ∧
        (startWalletSession c4Session volConfig).autoMintStats = [] ∧
        (stopWalletSession c4Session).pendingAction = none ∧
        (stopWalletSession c4Session).autoMintStats = []) := by
  intro h
  have h2 := h.2.1
  simp [startWalletSession, c4Session, makeSession] at h2

/-- C4 (amended): every Start and every Stop clears the session's
pendingAction and increments the epoch (Start also installs the config,
Stop clears it), but the per-mint momentum tracking state (`_autoMintStats`)
and the auto-filter counters (`_autoSnipeStats`) are left untouched — they
persist across stop/start, with in-flight work invalidated only through the
epoch guard. -/
theorem start_stop_transient_fields (s : WalletSession) (config : BotConfig) :
    (startWalletSession s config).pendingAction = none ∧
    (startWalletSession s config).epoch = s.epoch + 1 ∧
    (startWalletSession s config).running = true ∧
    (startWalletSession s config).config = some config ∧
    (startWalletSession s config).autoMintStats = s.autoMintStats ∧
    (startWalletSession s config).autoStats = s.autoStats ∧
    (stopWalletSession s).pendingAction = none ∧
    (stopWalletSession s).epoch = s.epoch + 1 ∧
    (stopWalletSession s).running = false ∧
    (stopWalletSession s).config = none ∧
    (stopWalletSession s).autoMintStats = s.autoMintStats ∧
    (stopWalletSession s).autoStats = s.autoStats := by
  simp [startWalletSession, stopWalletSession]

/-- C1: on cluster=devnet, both the prepare-bundle and the submit-bundle
handlers fail fast with their mainnet-only error for every schema-valid
input and every environment, and the session is returned completely
unchanged — in particular no bundle record is created, no prepared bundle is
stored and the pendingAction is untouched. -/
theorem devnet_bundle_refusal (penv : PrepareEnv) (senv : SubmitEnv)
    (s t : WalletSession) (txs : List String) (bid : String)
    (hv : validPrepareInput txs) (hu : senv.isUuid bid = true) :
    prepareBundle penv .devnet s txs = (.err 400 prepareMainnetOnlyMsg, s) ∧
    submitBundle senv .devnet t bid = (.err 400 submitMainnetOnlyMsg, t) := by
  constructor
  · unfold prepareBundle
    rw [if_neg (not_not_intro hv)]
    simp
  · unfold submitBundle
    rw [if_neg (by simp [hu])]
    simp

/-- C1 witness: the refusal at a concrete devnet request. -/
theorem devnet_bundle_refusal_witness :
    prepareBundle samplePrepareEnv .devnet sampleSession sampleTxs =
      (.err 400 prepareMainnetOnlyMsg, sampleSession) ∧
    submitBundle sampleSubmitEnv .devnet sampleSession "bundle-1" =
      (.err 400 submitMainnetOnlyMsg, sampleSession) :=
  devnet_bundle_refusal samplePrepareEnv sampleSubmitEnv sampleSession sampleSession
    sampleTxs "bundle-1" (by decide) rfl

theorem volumeIntervalTick_arms (t : WalletSession) (cfg : BotConfig) (now2 : Int)
    (hrun : t.running = true) (hcfg : t.config = some cfg) (hmode : cfg.mode = .volume)
    (hen : cfg.volumeEnabled = true) (hpa : t.pendingAction = none)
    (hlv : t.lastVolumeActionMs = none) :
    (volumeIntervalTick t now2).pendingAction = some (volumeActionFor cfg now2) := by
  have hvt : volumeTick t now2 = { t with pendingAction := some (volumeActionFor cfg now2) } := by
    simp [volumeTick, hcfg, hrun, hmode, hen, hpa]
  simp [volumeIntervalTick, hlv, hvt, hpa]

/-- C10: when a volume session starts (running, enabled volume config, no
pendingAction, no recorded last-volume-action timestamp, no timer yet), the
volume loop arms a volumeTimer pending action immediately — before any
interval wait — and leaves `_lastVolumeActionMs` unset, so once that action
is consumed, the very next 1 Hz interval callback (at any time `now2`) arms
the next action without being throttled by the immediate one. -/
theorem volume_loop_immediate_arm (s : WalletSession) (cfg : BotConfig) (now now2 : Int)
    (hrun : s.running = true) (hcfg : s.config = some cfg) (hmode : cfg.mode = .volume)
    (hen : cfg.volumeEnabled = true) (hpa : s.pendingAction = none)
    (hlv : s.lastVolumeActionMs = none) :
    ∃ act : PendingAction,
      (startVolumeLoop false s now).1.pendingAction = some act ∧
      act.source = some "volumeTimer" ∧
      act.targetMint = some cfg.volumeTokenMint ∧
      act.needsUnsignedTxs = true ∧
      (startVolumeLoop false s now).1.lastVolumeActionMs = none ∧
      ((volumeIntervalTick { (startVolumeLoop false s now).1 with pendingAction := none }
          now2).pendingAction).isSome = true := by
  have hstart : (startVolumeLoop false s now).1 = volumeTick s now := by
    simp [startVolumeLoop]
  have hvt : volumeTick s now = { s with pendingAction := some (volumeActionFor cfg now) } := by
    simp [volumeTick, hcfg, hrun, hmode, hen, hpa]
  refine ⟨volumeActionFor cfg now, ?_, rfl, rfl, rfl, ?_, ?_⟩
  · rw [hstart, hvt]
  · rw [hstart, hvt]
    exact hlv
  · rw [hstart, hvt]
    have harms := volumeIntervalTick_arms
      ({ { s with pendingAction := some (volumeActionFor cfg now) } with pendingAction := none })
      cfg now2 hrun hcfg hmode hen rfl hlv
    rw [harms]
    rfl

/-- C10 witness: the immediate arm on the concrete freshly started volume
session, and the unthrottled next interval arm at time 5000. -/
theorem volume_loop_immediate_arm_witness :
    ∃ act : PendingAction,
      (startVolumeLoop false volSession 0).1.pendingAction = some act ∧
      act.source = some "volumeTimer" ∧
      act.targetMint = some volConfig.volumeTokenMint ∧
      act.needsUnsignedTxs = true ∧
      (startVolumeLoop false volSession 0).1.lastVolumeActionMs = none ∧
      ((volumeIntervalTick { (startVolumeLoop false volSession 0).1 with pendingAction := none }
          5000).pendingAction).isSome = true :=
  volume_loop_immediate_arm volSession volConfig 0 5000 rfl rfl rfl rfl rfl rfl

/-- C3 counterexample: with two signals in flight on one running session,
both pass the entry guard (pendingAction null) and suspend; the first resume
writes action A; the second resume re-checks only running/config/epoch — not
the pendingAction — and writes action B while the slot already holds A. So
"a new pendingAction is set only when the current pendingAction is null
(including after asynchronous suspension points)" is false on this concrete
interleaving. -/
theorem pending_write_guard_cex :
    writesNewAction (signalSessionRun cexInit cexPrefix) (.resumeWrite 1 cexActB) ∧
    (signalSessionRun cexInit cexPrefix).pendingAction = some cexActA := by
  constructor
  · constructor
    · decide
    · decide
  · decide

/-- C3 (amended): the session holds at most one pendingAction (a single
nullable slot); a signal task passes the entry guard into the processing
path only when the session is running with a null pendingAction; and after a
suspension a resume writes a pendingAction only when the session is still
running and the epoch still equals the captured one — the pendingAction
itself is not re-checked, so the write may overwrite an action armed during
the suspension. -/
theorem pending_write_guard_amended :
    (∀ (st : SignalSessionState) (es : List SignalEvent),
      (signalSessionRun st es).pendingAction = none ∨
        ∃ a, (signalSessionRun st es).pendingAction = some a) ∧
    (∀ (st : SignalSessionState) (i : Nat),
      st.tasks.get? i = some .started →
      (signalSessionStep st (.enterGuard i)).tasks.get? i = some (.suspended st.epoch) →
      st.running = true ∧ st.pendingAction = none) ∧
    (∀ (st : SignalSessionState) (i : Nat) (act : PendingAction),
      (signalSessionStep st (.resumeWrite i act)).pendingAction ≠ st.pendingAction →
      st.running = true ∧ st.tasks.get? i = some (.suspended st.epoch)) := by
  refine ⟨?_, ?_, ?_⟩
  · intro st es
    cases h : (signalSessionRun st es).pendingAction with
    | none => exact Or.inl rfl
    | some a => exact Or.inr ⟨a, rfl⟩
  · intro st i hstarted hsusp
    rw [signalSessionStep] at hsusp
    rw [hstarted] at hsusp
    by_cases hg : st.running ∧ st.pendingAction = none
    · exact ⟨by simp [hg.1], hg.2⟩
    · rw [if_neg hg] at hsusp
      have hlt : i < st.tasks.length := by
        by_contra hge
        rw [List.get?_eq_none.mpr (by omega)] at hstarted
        cases hstarted
      rw [List.get?_set_eq_of_lt _ (by simpa using hlt)] at hsusp
      cases hsusp
  · intro st i act hw
    rw [signalSessionStep] at hw
    cases hph : st.tasks.get? i with
    | none => rw [hph] at hw; exact absurd rfl hw
    | some ph =>
      cases ph with
      | started => rw [hph] at hw; exact absurd rfl hw
      | done => rw [hph] at hw; exact absurd rfl hw
      | suspended ep =>
        rw [hph] at hw
        have hw2 : ((if st.running = true ∧ st.epoch = ep then
              { st with pendingAction := some act, tasks := st.tasks.set i SignalTaskPhase.done }
            else { st with tasks := st.tasks.set i SignalTaskPhase.done }) :
              SignalSessionState).pendingAction ≠ st.pendingAction := hw
        by_cases hg : st.running = true ∧ st.epoch = ep
        · refine ⟨hg.1, ?_⟩
          rw [hg.2]
        · rw [if_neg hg] at hw2
          exact absurd rfl hw2

/-- C3 witness: the amended guard facts at concrete states — the entry guard
held when task 0 of the counterexample session suspended, a resume write on
a suspended task implies the session was running with an unchanged epoch,
and the slot of the run state holds at most one action. -/
theorem pending_write_guard_amended_witness :
    (cexInit.running = true ∧ cexInit.pendingAction = none) ∧
    (suspState.running = true ∧
      suspState.tasks.get? 0 = some (SignalTaskPhase.suspended 0)) ∧
    ((signalSessionRun cexInit cexPrefix).pendingAction = none ∨
      ∃ a, (signalSessionRun cexInit cexPrefix).pendingAction = some a) := by
  have h := pending_write_guard_amended
  refine ⟨h.2.1 cexInit 0 (by decide) (by decide), ?_, h.1 cexInit cexPrefix⟩
  have h3 := h.2.2 suspState 0 cexActA (by decide)
  exact ⟨h3.1, by simpa [suspState] using h3.2⟩

/-- C8: the holder-concentration caps of checkMintSafety are enforced only
when at least 5 of the largest holders are non-zero: for a mint with fewer
than 5 non-zero holders, the top1/top10 caps never cause a rejection. -/
theorem holder_gate_needs_five (env : SafetyEnv) (cfg : AutoSnipeConfig)
    (h : (env.largestAmounts.filter (fun a => 0 < a)).length < 5) :
    (checkMintSafety env cfg).reason ≠ some .top1TooHigh ∧
    (checkMintSafety env cfg).reason ≠ some .top10TooHigh := by
  constructor <;>
    · intro hc
      simp only [checkMintSafety] at hc
      repeat' split at hc
      all_goals try simp at hc
      all_goals (rename_i hcap; exact absurd hcap.1 (by omega))

/-- C8 witness: a healthy mint whose single holder owns 100 percent of the
supply passes the safety check because it has fewer than 5 non-zero holders;
in particular neither top-k cap is the reject reason. -/
theorem holder_gate_needs_five_witness :
    (checkMintSafety c8Env sampleCfg).reason ≠ some .top1TooHigh ∧
    (checkMintSafety c8Env sampleCfg).reason ≠ some .top10TooHigh ∧
    (checkMintSafety c8Env sampleCfg).ok = true := by
  have h := holder_gate_needs_five c8Env sampleCfg (by decide)
  exact ⟨h.1, h.2, by decide⟩

theorem markSeenSignature_fresh (seen : List String) (sig : String) (h : sig ∉ seen) :
    (markSeenSignature seen sig).1 = false ∧ sig ∈ (markSeenSignature seen sig).2 := by
  unfold markSeenSignature
  rw [if_neg h]
  by_cases hlen : (seen ++ [sig]).length > 3000
  · rw [if_pos hlen]
    refine ⟨rfl, ?_⟩
    rw [List.drop_append_of_le_length
      (by simp only [List.length_append, List.length_singleton] at hlen ⊢; omega)]
    simp
  · rw [if_neg hlen]
    simp

theorem markSeenAll_fresh_nodup (l : List String) :
    ∀ s : List String, s.length + l.length ≤ 3000 → (∀ x ∈ l, x ∉ s) → l.Nodup →
      markSeenAll s l = s ++ l := by
  induction l with
  | nil => intro s _ _ _; simp [markSeenAll]
  | cons a t ih =>
    intro s hlen hfresh hnd
    simp only [List.length_cons] at hlen
    have ha : a ∉ s := hfresh a (by simp)
    have hstep : (markSeenSignature s a).2 = s ++ [a] := by
      unfold markSeenSignature
      rw [if_neg ha, if_neg (by simp only [List.length_append, List.length_singleton]; omega)]
    have hrest : markSeenAll (s ++ [a]) t = (s ++ [a]) ++ t := by
      refine ih (s ++ [a])
        (by simp only [List.length_append, List.length_singleton]; omega) ?_ hnd.of_cons
      intro x hx
      simp only [List.mem_append, List.mem_singleton]
      rintro (hxs | hxa)
      · exact hfresh x (by simp [hx]) hxs
      · exact (List.nodup_cons.mp hnd).1 (hxa ▸ hx)
    calc markSeenAll s (a :: t) = markSeenAll (markSeenSignature s a).2 t := rfl
      _ = markSeenAll (s ++ [a]) t := by rw [hstep]
      _ = s ++ a :: t := by rw [hrest, List.append_assoc]; rfl

/-- C6: signature deduplication and trim. A signature not in the seen set is
reported new (and is in the set afterwards); a signature already in the set
is reported already-seen and the set is unchanged; and delivering 3001
pairwise distinct signatures to an empty set leaves exactly the most
recently inserted 2000 of them — the set is the last 2000 inserts in
insertion order, so its size is at most 2000 and every one of the last 2000
inserted signatures is still present. -/
theorem signature_dedup_and_trim :
    (∀ (seen : List String) (sig : String), sig ∉ seen →
      (markSeenSignature seen sig).1 = false ∧ sig ∈ (markSeenSignature seen sig).2) ∧
    (∀ (seen : List String) (sig : String), sig ∈ seen →
      (markSeenSignature seen sig).1 = true ∧ (markSeenSignature seen sig).2 = seen) ∧
    (∀ l : List String, l.Nodup → l.length = 3001 →
      markSeenAll [] l = l.drop 1001 ∧ (markSeenAll [] l).length ≤ 2000 ∧
      ∀ x ∈ l.drop 1001, x ∈ markSeenAll [] l) := by
  refine ⟨markSeenSignature_fresh, ?_, ?_⟩
  · intro seen sig h
    unfold markSeenSignature
    rw [if_pos h]
    exact ⟨rfl, rfl⟩
  · intro l hnd hlen
    have hsplit : l.take 3000 ++ l.drop 3000 = l := List.take_append_drop _ _
    obtain ⟨a, ha⟩ := List.length_eq_one.mp
      (show (l.drop 3000).length = 1 by rw [List.length_drop, hlen])
    have hlen1 : (l.take 3000).length = 3000 := by rw [List.length_take]; omega
    have hnd1 : (l.take 3000).Nodup := hnd.sublist (List.take_sublist _ _)
    have hrun1 : markSeenAll [] (l.take 3000) = l.take 3000 :=
      markSeenAll_fresh_nodup _ [] (by simp [hlen1]) (by simp) hnd1
    have hana : a ∉ l.take 3000 := by
      have hdisj : List.Disjoint (l.take 3000) (l.drop 3000) :=
        List.disjoint_take_drop hnd (le_refl _)
      intro hmem
      exact hdisj hmem (by simp [ha])
    have hlast : l.take 3000 ++ [a] = l := by rw [← ha]; exact hsplit
    have hfold : markSeenAll [] l = (markSeenSignature (l.take 3000) a).2 := by
      conv_lhs => rw [← hlast]
      unfold markSeenAll
      rw [List.foldl_append]
      rw [show (l.take 3000).foldl (fun s sig => (markSeenSignature s sig).2) [] =
        markSeenAll [] (l.take 3000) from rfl, hrun1]
      rfl
    have hstep : (markSeenSignature (l.take 3000) a).2 = l.drop 1001 := by
      unfold markSeenSignature
      rw [if_neg hana, if_pos (by rw [hlast, hlen]; omega)]
      rw [hlast, hlen]
    have hdrop : markSeenAll [] l = l.drop 1001 := by rw [hfold, hstep]
    refine ⟨hdrop, ?_, ?_⟩
    · rw [hdrop, List.length_drop, hlen]
    · intro x hx
      rw [hdrop]
      exact hx

/-- C6 witness: the three dedup facts at concrete inputs — a fresh signature
is new, a repeated one is discarded with the set unchanged, and inserting
3001 distinct signatures (strings of 0 to 3000 letters) leaves exactly the
last 2000 of them. -/
theorem signature_dedup_and_trim_witness :
    (markSeenSignature [] "a").1 = false ∧ "a" ∈ (markSeenSignature [] "a").2 ∧
    (markSeenSignature ["a"] "a").1 = true ∧ (markSeenSignature ["a"] "a").2 = ["a"] ∧
    markSeenAll [] bigSigList = bigSigList.drop 1001 ∧
    (markSeenAll [] bigSigList).length ≤ 2000 := by
  have h := signature_dedup_and_trim
  have h1 := h.1 [] "a" (by simp)
  have h2 := h.2.1 ["a"] "a" (by simp)
  have hnd : bigSigList.Nodup := by
    refine List.Nodup.map ?_ (List.nodup_range 3001)
    intro a b hab
    have hdata : List.replicate a 'a' = List.replicate b 'a' := by
      injection hab
    simpa using congrArg List.length hdata
  have hlen : bigSigList.length = 3001 := by simp [bigSigList]
  have h3 := h.2.2 bigSigList hnd hlen
  exact ⟨h1.1, h1.2, h2.1, h2.2, h3.1, h3.2.1⟩

theorem bumpReject_totalSignals (stats : AutoSnipeStats) (r : RejectReason) :
    (bumpReject stats r).totalSignals = stats.totalSignals := rfl

theorem bumpReject_txOk (stats : AutoSnipeStats) (r : RejectReason) :
    (bumpReject stats r).txOk = stats.txOk := rfl

theorem bumpReject_mintInferred (stats : AutoSnipeStats) (r : RejectReason) :
    (bumpReject stats r).mintInferred = stats.mintInferred := rfl

theorem bumpReject_safetyOk (stats : AutoSnipeStats) (r : RejectReason) :
    (bumpReject stats r).safetyOk = stats.safetyOk := rfl

theorem bumpReject_triggered (stats : AutoSnipeStats) (r : RejectReason) :
    (bumpReject stats r).triggered = stats.triggered := rfl

theorem statsLE_trans (a b c : AutoSnipeStats) (h1 : statsLE a b) (h2 : statsLE b c) :
    statsLE a c := by
  unfold statsLE at *
  omega

theorem autoSnipeStepCore_statsLE (cfg : AutoSnipeConfig) (ms : List (String × MomentumEntry))
    (stats : AutoSnipeStats) (inp : SignalInput) (mint : String) (st0 : MomentumEntry) :
    statsLE stats (autoSnipeStepCore cfg ms stats inp mint st0).2.1 := by
  unfold statsLE
  simp only [autoSnipeStepCore]
  repeat' split
  all_goals
    try simp only [bumpReject_totalSignals, bumpReject_txOk, bumpReject_mintInferred,
      bumpReject_safetyOk, bumpReject_triggered]
  all_goals omega

theorem autoSnipeStep_statsLE (cfg : AutoSnipeConfig) (ms : List (String × MomentumEntry))
    (stats : AutoSnipeStats) (inp : SignalInput) :
    statsLE stats (autoSnipeStep cfg ms stats inp).2.1 := by
  have hcore := autoSnipeStepCore_statsLE cfg
  simp only [autoSnipeStep]
  repeat' split
  all_goals
    first
      | (refine statsLE_trans _ _ _ ?_ (hcore _ _ _ _ _)
         unfold statsLE
         try simp only [bumpReject_totalSignals, bumpReject_txOk, bumpReject_mintInferred,
           bumpReject_safetyOk, bumpReject_triggered]
         omega)
      | (unfold statsLE
         try simp only [bumpReject_totalSignals, bumpReject_txOk, bumpReject_mintInferred,
           bumpReject_safetyOk, bumpReject_triggered]
         omega)

theorem autoSnipeStepCore_chain (cfg : AutoSnipeConfig) (ms : List (String × MomentumEntry))
    (stats : AutoSnipeStats) (inp : SignalInput) (mint : String) (st0 : MomentumEntry)
    (h1 : stats.triggered ≤ stats.safetyOk) (h2 : stats.safetyOk < stats.mintInferred)
    (h3 : stats.mintInferred ≤ stats.txOk) (h4 : stats.txOk ≤ stats.totalSignals) :
    statsChain (autoSnipeStepCore cfg ms stats inp mint st0).2.1 := by
  unfold statsChain
  simp only [autoSnipeStepCore]
  repeat' split
  all_goals
    try simp only [bumpReject_totalSignals, bumpReject_txOk, bumpReject_mintInferred,
      bumpReject_safetyOk, bumpReject_triggered]
  all_goals omega

theorem autoSnipeStep_chain (cfg : AutoSnipeConfig) (ms : List (String × MomentumEntry))
    (stats : AutoSnipeStats) (inp : SignalInput) (h : statsChain stats) :
    statsChain (autoSnipeStep cfg ms stats inp).2.1 := by
  unfold statsChain at h
  have hcore := autoSnipeStepCore_chain cfg
  simp only [autoSnipeStep]
  repeat' split
  all_goals
    first
      | (exact hcore _ _ _ _ _ (by simp; omega) (by simp; omega) (by simp; omega) (by simp; omega))
      | (unfold statsChain
         try simp only [bumpReject_totalSignals, bumpReject_txOk, bumpReject_mintInferred,
           bumpReject_safetyOk, bumpReject_triggered]
         omega)

/-- C9: under a fixed config, processing one more signal never decreases any
of the five auto-filter counters, and after any sequence of processed
signals starting from the lazily initialized all-zero counters the funnel
chain triggered ≤ safetyOk ≤ mintInferred ≤ txOk ≤ totalSignals holds. -/
theorem auto_filter_monotonicity (cfg : AutoSnipeConfig) :
    (∀ (inputs : List SignalInput) (inp : SignalInput),
      statsLE (autoSnipeRun cfg inputs).2 (autoSnipeRun cfg (inputs ++ [inp])).2) ∧
    (∀ inputs : List SignalInput, statsChain (autoSnipeRun cfg inputs).2) := by
  constructor
  · intro inputs inp
    unfold autoSnipeRun
    rw [List.foldl_append]
    simp only [List.foldl_cons, List.foldl_nil]
    exact autoSnipeStep_statsLE cfg _ _ inp
  · intro inputs
    unfold autoSnipeRun
    have haux : ∀ (l : List SignalInput) (p : List (String × MomentumEntry) × AutoSnipeStats),
        statsChain p.2 → statsChain (l.foldl (autoSnipeFold cfg) p).2 := by
      intro l
      induction l with
      | nil => intro p hp; simpa using hp
      | cons i t ih =>
        intro p hp
        exact ih _ (autoSnipeStep_chain cfg p.1 p.2 i hp)
    exact haux inputs ([], {}) (by unfold statsChain; simp)

theorem autoSnipeStepCore_triggered (cfg : AutoSnipeConfig) (ms : List (String × MomentumEntry))
    (stats : AutoSnipeStats) (inp : SignalInput) (mint : String) (st0 : MomentumEntry)
    (ms2 : List (String × MomentumEntry)) (stats2 : AutoSnipeStats) (m : String)
    (h : autoSnipeStepCore cfg ms stats inp mint st0 = (ms2, stats2, .triggered m)) :
    m = mint ∧
    ∃ st : MomentumEntry, alookup ms2 m = some st ∧
      st.firstSeenMs = st0.firstSeenMs ∧ st.createdAtMs = st0.createdAtMs ∧
      ((Int.fdiv (inp.now - st.createdAtMs) 1000 : Int) : ℚ) ≤ cfg.maxTxAgeSec ∧
      cfg.minSignalsInWindow ≤ st.count ∧
      cfg.minUniqueFeePayersInWindow ≤ st.payers.length := by
  simp only [autoSnipeStepCore] at h
  split at h
  · simp at h
  · rename_i hage
    split at h
    · simp at h
    · split at h
      · simp at h
      · split at h
        · simp at h
        · rename_i hok
          split at h
          · simp at h
          · split at h
            · simp at h
            · rename_i hcnt hpay
              rw [Prod.mk.injEq, Prod.mk.injEq] at h
              obtain ⟨hms, hstats, htr⟩ := h
              injection htr with hmm
              subst hmm
              subst hms
              refine ⟨rfl, ?_⟩
              refine ⟨_, alookup_ainsert_self _ _ _, rfl, rfl, ?_, ?_, ?_⟩
              · exact not_lt.mp hage
              · exact not_lt.mp hcnt
              · exact not_lt.mp hpay

/-- C7: under a fixed config, when an auto-branch iteration triggers for a
mint, the resulting momentum entry for that mint witnesses the gates the
source enforced: the signal arrived within windowSec seconds of the entry's
(possibly reset) first-seen time, the entry's age in whole seconds since its
created-at time is at most maxTxAgeSec, its signal count has reached
minSignalsInWindow, and its unique fee-payer set has reached
minUniqueFeePayersInWindow. -/
theorem momentum_window_semantics (cfg : AutoSnipeConfig)
    (ms : List (String × MomentumEntry)) (stats : AutoSnipeStats) (inp : SignalInput)
    (ms2 : List (String × MomentumEntry)) (stats2 : AutoSnipeStats) (m : String)
    (hw : (0 : ℚ) ≤ cfg.windowSec)
    (h : autoSnipeStep cfg ms stats inp = (ms2, stats2, .triggered m)) :
    ∃ st : MomentumEntry, alookup ms2 m = some st ∧
      ((inp.now - st.firstSeenMs : Int) : ℚ) ≤ cfg.windowSec * 1000 ∧
      ((Int.fdiv (inp.now - st.createdAtMs) 1000 : Int) : ℚ) ≤ cfg.maxTxAgeSec ∧
      cfg.minSignalsInWindow ≤ st.count ∧
      cfg.minUniqueFeePayersInWindow ≤ st.payers.length := by
  have hfreshwin : ∀ st : MomentumEntry, st.firstSeenMs = inp.now →
      ((inp.now - st.firstSeenMs : Int) : ℚ) ≤ cfg.windowSec * 1000 := by
    intro st hfs
    rw [hfs]
    simp only [sub_self, Int.cast_zero]
    exact mul_nonneg hw (by norm_num)
  simp only [autoSnipeStep] at h
  split at h
  · simp at h
  · split at h
    · simp at h
    · split at h
      · split at h
        · simp at h
        · obtain ⟨hm, st, hlk, hfs, hcd, hage, hcnt, hpay⟩ :=
            autoSnipeStepCore_triggered _ _ _ _ _ _ _ _ _ h
          exact ⟨st, hlk, hfreshwin st hfs, hage, hcnt, hpay⟩
      · split at h
        · split at h
          · simp at h
          · obtain ⟨hm, st, hlk, hfs, hcd, hage, hcnt, hpay⟩ :=
              autoSnipeStepCore_triggered _ _ _ _ _ _ _ _ _ h
            exact ⟨st, hlk, hfreshwin st hfs, hage, hcnt, hpay⟩
        · rename_i hwin
          obtain ⟨hm, st, hlk, hfs, hcd, hage, hcnt, hpay⟩ :=
            autoSnipeStepCore_triggered _ _ _ _ _ _ _ _ _ h
          refine ⟨st, hlk, ?_, hage, hcnt, hpay⟩
          rw [hfs]
          exact not_lt.mp hwin

/-- C7 witness: the third in-window signal for mint M (three signals, three
distinct payers, cached passing safety) triggers, and the stored entry meets
every gate. -/
theorem momentum_window_semantics_witness :
    ∃ st : MomentumEntry,
      alookup (autoSnipeStep sampleCfg sampleMs {} sampleInp).1 "M" = some st ∧
      ((sampleInp.now - st.firstSeenMs : Int) : ℚ) ≤ sampleCfg.windowSec * 1000 ∧
      ((Int.fdiv (sampleInp.now - st.createdAtMs) 1000 : Int) : ℚ) ≤ sampleCfg.maxTxAgeSec ∧
      sampleCfg.minSignalsInWindow ≤ st.count ∧
      sampleCfg.minUniqueFeePayersInWindow ≤ st.payers.length := by
  have hout : (autoSnipeStep sampleCfg sampleMs {} sampleInp).2.2 = .triggered "M" := by
    simp only [autoSnipeStep, autoSnipeStepCore, sampleCfg, sampleMs, sampleInp,
      sampleSafetyOk, alookup]
    norm_num [Int.fdiv]
    decide
  have h : autoSnipeStep sampleCfg sampleMs {} sampleInp =
      ((autoSnipeStep sampleCfg sampleMs {} sampleInp).1,
        (autoSnipeStep sampleCfg sampleMs {} sampleInp).2.1, .triggered "M") := by
    rw [← hout]
  exact momentum_window_semantics sampleCfg sampleMs {} sampleInp _ _ "M"
    (by norm_num [sampleCfg]) h

theorem tipCheckSession_fields (env : PrepareEnv) (s : WalletSession) (txs : List DecodedTx) :
    (tipCheckSession env s txs).preparedBundles = s.preparedBundles ∧
    (tipCheckSession env s txs).bundles = s.bundles ∧
    (tipCheckSession env s txs).pendingAction = s.pendingAction := by
  unfold tipCheckSession
  repeat' split
  all_goals simp

theorem prepareBundle_success (env : PrepareEnv) (s : WalletSession) (txs : List String)
    (dtxs : List DecodedTx) (sim : String)
    (hv : validPrepareInput txs)
    (hd : txs.mapM env.decodeTx = some dtxs)
    (hsim : env.simulate (txs.map env.toBase58) = .ok sim) :
    (prepareBundle env .mainnetBeta s txs).1 = .ok env.freshId sim ∧
    (prepareBundle env .mainnetBeta s txs).2.pendingAction = none ∧
    (prepareBundle env .mainnetBeta s txs).2.preparedBundles =
      ainsert s.preparedBundles env.freshId
        { bundleId := env.freshId
          encodedTransactionsBase58 := txs.map env.toBase58
          createdAtMs := env.now } ∧
    (prepareBundle env .mainnetBeta s txs).2.bundles =
      ainsert s.bundles env.freshId
        { bundleId := env.freshId
          state := .prepared
          createdAtMs := env.now
          lastUpdateMs := env.now
          jitoStatus := some (.sim sim)
          txSignatures := dtxs.filterMap (fun t => t.signatures.head?) } := by
  obtain ⟨hp, hb, _⟩ := tipCheckSession_fields env s dtxs
  unfold prepareBundle
  rw [if_neg (not_not_intro hv), if_neg (by simp)]
  rw [hd]
  simp only [hsim]
  simp [hp, hb]

/-- C2: a successful Prepare on mainnet (schema-valid 1..5 transactions,
deserialization and simulateBundle succeed, fresh local id) assigns the
fresh id, appends exactly one entry to the session's preparedBundles map and
one to its bundles map with state prepared, stores the simulateBundle result
verbatim in the bundle record, and sets the session's pendingAction to
null. -/
theorem prepare_success_inserts (env : PrepareEnv) (s : WalletSession) (txs : List String)
    (dtxs : List DecodedTx) (sim : String)
    (hv : validPrepareInput txs)
    (hd : txs.mapM env.decodeTx = some dtxs)
    (hsim : env.simulate (txs.map env.toBase58) = .ok sim)
    (hfresh1 : alookup s.preparedBundles env.freshId = none)
    (hfresh2 : alookup s.bundles env.freshId = none) :
    (prepareBundle env .mainnetBeta s txs).1 = .ok env.freshId sim ∧
    (prepareBundle env .mainnetBeta s txs).2.pendingAction = none ∧
    (prepareBundle env .mainnetBeta s txs).2.preparedBundles =
      s.preparedBundles ++ [(env.freshId,
        { bundleId := env.freshId
          encodedTransactionsBase58 := txs.map env.toBase58
          createdAtMs := env.now })] ∧
    (prepareBundle env .mainnetBeta s txs).2.bundles =
      s.bundles ++ [(env.freshId,
        { bundleId := env.freshId
          state := .prepared
          createdAtMs := env.now
          lastUpdateMs := env.now
          jitoStatus := some (.sim sim)
          txSignatures := dtxs.filterMap (fun t => t.signatures.head?) })] ∧
    (prepareBundle env .mainnetBeta s txs).2.preparedBundles.length =
      s.preparedBundles.length + 1 ∧
    (prepareBundle env .mainnetBeta s txs).2.bundles.length = s.bundles.length + 1 := by
  obtain ⟨h1, h2, h3, h4⟩ := prepareBundle_success env s txs dtxs sim hv hd hsim
  rw [ainsert_append_of_none _ _ _ hfresh1] at h3
  rw [ainsert_append_of_none _ _ _ hfresh2] at h4
  refine ⟨h1, h2, h3, h4, ?_, ?_⟩
  · rw [h3]; simp
  · rw [h4]; simp

/-- C2 witness: Prepare at a concrete mainnet request with one signed
transaction: id bundle-1 assigned, one entry in each map with state
prepared, simulation payload stored verbatim, pendingAction cleared. -/
theorem prepare_success_inserts_witness :
    (prepareBundle samplePrepareEnv .mainnetBeta sampleSession sampleTxs).1 =
      .ok "bundle-1" "simulated" ∧
    (prepareBundle samplePrepareEnv .mainnetBeta sampleSession sampleTxs).2.pendingAction =
      none ∧
    (prepareBundle samplePrepareEnv .mainnetBeta sampleSession sampleTxs).2.bundles.length =
      1 := by
  have h := prepare_success_inserts samplePrepareEnv sampleSession sampleTxs
    [sampleDecodedTx] "simulated" (by decide) rfl rfl rfl rfl
  exact ⟨h.1, h.2.1, by rw [h.2.2.2.2.2]; rfl⟩

theorem prepareBundle_noTip_warn (env : PrepareEnv) (s : WalletSession) (txs : List String)
    (dtxs : List DecodedTx) (accs : List String) (lastTx : DecodedTx)
    (hv : validPrepareInput txs)
    (hd : txs.mapM env.decodeTx = some dtxs)
    (hacc : env.tipAccounts = .ok accs)
    (hlast : dtxs.getLast? = some lastTx)
    (htip : isSystemTransferToTipAccount lastTx accs = false)
    (hlen : s.logs.length ≤ 498) :
    LogLine.mk .warn noTipWarnMsg ∈ (prepareBundle env .mainnetBeta s txs).2.logs := by
  have hs1 : tipCheckSession env s dtxs =
      { s with logs := pushLog s.logs LogLevel.warn noTipWarnMsg } := by
    simp [tipCheckSession, hacc, hlast, htip]
  have hpush1 : pushLog s.logs LogLevel.warn noTipWarnMsg =
      s.logs ++ [⟨LogLevel.warn, noTipWarnMsg⟩] :=
    pushLog_eq_append _ _ _ (by omega)
  have hmem : ∀ (lv : LogLevel) (m : String),
      LogLine.mk .warn noTipWarnMsg ∈
        pushLog (pushLog s.logs LogLevel.warn noTipWarnMsg) lv m := by
    intro lv m
    rw [pushLog_eq_append _ _ _ (by rw [hpush1]; simp; omega), hpush1]
    simp
  unfold prepareBundle
  rw [if_neg (not_not_intro hv), if_neg (by simp)]
  rw [hd]
  simp only [hs1]
  cases hsim : env.simulate (txs.map env.toBase58) with
  | error e => simpa using hmem LogLevel.error ("prepare-bundle failed: " ++ e)
  | ok sim =>
    simpa using hmem LogLevel.info ("Bundle prepared (simulated). id=" ++ env.freshId)

theorem prepareBundle_tipErr_warn (env : PrepareEnv) (s : WalletSession) (txs : List String)
    (dtxs : List DecodedTx) (e : String)
    (hv : validPrepareInput txs)
    (hd : txs.mapM env.decodeTx = some dtxs)
    (hacc : env.tipAccounts = .error e)
    (hlen : s.logs.length ≤ 498) :
    LogLine.mk .warn (tipLookupWarnMsg ++ e) ∈
      (prepareBundle env .mainnetBeta s txs).2.logs := by
  have hs1 : tipCheckSession env s dtxs =
      { s with logs := pushLog s.logs LogLevel.warn (tipLookupWarnMsg ++ e) } := by
    simp [tipCheckSession, hacc]
  have hpush1 : pushLog s.logs LogLevel.warn (tipLookupWarnMsg ++ e) =
      s.logs ++ [⟨LogLevel.warn, tipLookupWarnMsg ++ e⟩] :=
    pushLog_eq_append _ _ _ (by omega)
  have hmem : ∀ (lv : LogLevel) (m : String),
      LogLine.mk .warn (tipLookupWarnMsg ++ e) ∈
        pushLog (pushLog s.logs LogLevel.warn (tipLookupWarnMsg ++ e)) lv m := by
    intro lv m
    rw [pushLog_eq_append _ _ _ (by rw [hpush1]; simp; omega), hpush1]
    simp
  unfold prepareBundle
  rw [if_neg (not_not_intro hv), if_neg (by simp)]
  rw [hd]
  simp only [hs1]
  cases hsim : env.simulate (txs.map env.toBase58) with
  | error e2 => simpa using hmem LogLevel.error ("prepare-bundle failed: " ++ e2)
  | ok sim =>
    simpa using hmem LogLevel.info ("Bundle prepared (simulated). id=" ++ env.freshId)

/-- C5: the tip-last check of Prepare on mainnet is non-fatal. When the
tip-account fetch succeeds but the last signed transaction is not a native
SystemProgram transfer to one of the fetched tip accounts, Prepare logs the
no-tip warning and still proceeds; when the tip-account lookup itself fails,
Prepare logs its warning and continues; in both cases, whenever the
simulation succeeds the bundle is still prepared — the response is ok, the
bundle record is stored with state prepared, and the pendingAction is
cleared. -/
theorem tip_check_nonfatal (env : PrepareEnv) (s : WalletSession) (txs : List String)
    (dtxs : List DecodedTx)
    (hv : validPrepareInput txs)
    (hd : txs.mapM env.decodeTx = some dtxs)
    (hlen : s.logs.length ≤ 498) :
    (∀ (accs : List String) (lastTx : DecodedTx),
      env.tipAccounts = .ok accs → dtxs.getLast? = some lastTx →
      isSystemTransferToTipAccount lastTx accs = false →
      LogLine.mk .warn noTipWarnMsg ∈ (prepareBundle env .mainnetBeta s txs).2.logs) ∧
    (∀ e : String, env.tipAccounts = .error e →
      LogLine.mk .warn (tipLookupWarnMsg ++ e) ∈
        (prepareBundle env .mainnetBeta s txs).2.logs) ∧
    (∀ sim : String, env.simulate (txs.map env.toBase58) = .ok sim →
      (prepareBundle env .mainnetBeta s txs).1 = .ok env.freshId sim ∧
      alookup (prepareBundle env .mainnetBeta s txs).2.bundles env.freshId =
        some { bundleId := env.freshId
               state := .prepared
               createdAtMs := env.now
               lastUpdateMs := env.now
               jitoStatus := some (.sim sim)
               txSignatures := dtxs.filterMap (fun t => t.signatures.head?) } ∧
      (prepareBundle env .mainnetBeta s txs).2.pendingAction = none) := by
  refine ⟨?_, ?_, ?_⟩
  · intro accs lastTx hacc hlast htip
    exact prepareBundle_noTip_warn env s txs dtxs accs lastTx hv hd hacc hlast htip hlen
  · intro e hacc
    exact prepareBundle_tipErr_warn env s txs dtxs e hv hd hacc hlen
  · intro sim hsim
    obtain ⟨h1, h2, _, h4⟩ := prepareBundle_success env s txs dtxs sim hv hd hsim
    refine ⟨h1, ?_, h2⟩
    rw [h4]
    exact alookup_ainsert_self _ _ _

/-- C5 witness: a concrete mainnet Prepare whose decoded transaction is not
a tip transfer (empty tip-account set): the no-tip warning is in the session
log and the bundle is still prepared with the pendingAction cleared. -/
theorem tip_check_nonfatal_witness :
    LogLine.mk .warn noTipWarnMsg ∈
      (prepareBundle samplePrepareEnv .mainnetBeta sampleSession sampleTxs).2.logs ∧
    (prepareBundle samplePrepareEnv .mainnetBeta sampleSession sampleTxs).1 =
      .ok "bundle-1" "simulated" ∧
    (prepareBundle samplePrepareEnv .mainnetBeta sampleSession sampleTxs).2.pendingAction =
      none := by
  have h := tip_check_nonfatal samplePrepareEnv sampleSession sampleTxs [sampleDecodedTx]
    (by decide) rfl (by decide)
  refine ⟨h.1 [] sampleDecodedTx rfl rfl (by decide), ?_, ?_⟩
  · exact (h.2.2 "simulated" rfl).1
  · exact (h.2.2 "simulated" rfl).2.2

end SolMillion
